import Mathlib

/-!
Verification of the pyeee core against its design specification.

Shallow embedding of the code in `src/utils/webauth.py` (transparent
WebAuth session augmentation) and `src/sites/webreg.py` (WebReg protocol
navigator and enrollment-error classification).

Modelling conventions:
* HTML documents are flattened lists of elements (tag plus attribute
  association list); `BeautifulSoup.find(tag, attrs)` becomes a first-match
  search over that list.
* The HTTP transport is an oracle `Net : Nat -> Req -> Resp`: the k-th
  physical request of a run receives the oracle's answer at index k.  Every
  issued request is recorded in a trace of events, each tagged with the code
  location that issued it and the session augmentation flag at issue time.
* Machine-level concerns (sockets, cookies) are abstracted into the oracle
  index: a later request may see a different answer, which is how a
  re-authenticated retry can succeed where the original failed.
* Python exceptions become `Except` values; a `KeyError` from a dict/header
  lookup is an explicit error constructor.
-/

/-- Attribute association list of an HTML element. -/
abbrev Attrs := List (String × String)

/-- An HTML element: tag name plus attributes.  Documents are flattened
element lists in document order, which is all `find` needs. -/
structure Elem where
  tag : String
  attrs : Attrs
deriving DecidableEq

/-- A parsed HTML document (flattened). -/
abbrev Html := List Elem

/-- An outbound HTTP request: method, URL, query params, form body. -/
structure Req where
  method : String
  url : String
  params : List (String × String)
  dat : List (String × String)
deriving DecidableEq

/-- An HTTP response: final URL after redirects, headers, parsed body,
and the truthiness of the response object (`requests` makes a response
falsy on 4xx/5xx status). -/
structure Resp where
  url : String
  headers : List (String × String)
  body : Html
  ok : Bool
deriving DecidableEq

/-- Which code location issued a physical request. -/
inductive Origin where
  | wrapper
  | authAgent
  | navigator
deriving DecidableEq

/-- A recorded physical request: issuing location, the session
augmentation flag at issue time, the request, and its response. -/
structure Event where
  origin : Origin
  eeeAtIssue : Bool
  req : Req
  resp : Resp
deriving DecidableEq

/-- The HTTP transport oracle: answer to the k-th physical request. -/
abbrev Net := Nat → Req → Resp

/-- First value bound to key `k` in an association list (Python dict
lookup for dicts built without duplicate keys). -/
def lookupStr (l : List (String × String)) (k : String) : Option String :=
  (l.find? (fun p => p.1 == k)).map (·.2)

/-- ASCII lower-casing of a string (structural, so that proofs can
evaluate it). -/
def toLowerS (s : String) : String :=
  String.mk (s.data.map Char.toLower)

/-- Test that `s` starts with `pre` (structural replacement for
`String.startsWith`, so that proofs can evaluate it). -/
def startsWithS (s pre : String) : Bool :=
  pre.data.isPrefixOf s.data

/-- Split a character list on a separator character, keeping empty
fields, like Python `str.split(sep)`. -/
def splitOnCharS (c : Char) : List Char → List (List Char)
  | [] => [[]]
  | x :: rest =>
    let r := splitOnCharS c rest
    if x = c then [] :: r
    else
      match r with
      | h :: t => (x :: h) :: t
      | [] => [[x]]

/-- Case-insensitive header lookup, mirroring the `CaseInsensitiveDict`
used for `response.headers`; the queried key is given in lower case. -/
def headerLookup (headers : List (String × String)) (k : String) : Option String :=
  (headers.find? (fun p => toLowerS p.1 == k)).map (·.2)

/-- Hexadecimal value of a character, if any. -/
def hexVal (c : Char) : Option Nat :=
  if '0' ≤ c ∧ c ≤ '9' then some (c.toNat - '0'.toNat)
  else if 'a' ≤ c ∧ c ≤ 'f' then some (c.toNat - 'a'.toNat + 10)
  else if 'A' ≤ c ∧ c ≤ 'F' then some (c.toNat - 'A'.toNat + 10)
  else none

/-- Percent-decoding as in `urllib.parse.unquote`: a `%` followed by two
hex digits becomes the byte's character, anything else is kept verbatim.
(Python additionally reassembles multi-byte UTF-8 sequences; the URLs this
program handles are ASCII, where the two agree.) -/
def percentDecode : List Char → List Char
  | [] => []
  | '%' :: h1 :: h2 :: rest2 =>
    match hexVal h1, hexVal h2 with
    | some a, some b => Char.ofNat (16 * a + b) :: percentDecode rest2
    | _, _ => '%' :: percentDecode (h1 :: h2 :: rest2)
  | '%' :: rest => '%' :: percentDecode rest
  | c :: rest => c :: percentDecode rest

/-- The `unquote_plus` used by `parse_qs`: `+` means space, then
percent-decode. -/
def unquotePlus (s : String) : String :=
  String.mk (percentDecode (s.data.map (fun c => if c = '+' then ' ' else c)))

/-- Split a `name=value` field at the first `=`; `none` when there is
no `=` (such fields are dropped by `parse_qs`). -/
def splitFirstEq (s : String) : Option (String × String) :=
  let name := s.data.takeWhile (fun c => c ≠ '=')
  let rest := s.data.dropWhile (fun c => c ≠ '=')
  match rest with
  | '=' :: v => some (String.mk name, String.mk v)
  | _ => none

/-- Model of `urllib.parse.parse_qsl` with default options: split the
query on `&`, keep only fields with a non-empty raw value, and
percent-decode names and values.  `parse_qs` groups the resulting pairs
by name in order. -/
def parseQSL (qs : String) : List (String × String) :=
  ((splitOnCharS '&' qs.data).map String.mk).foldr
    (fun nv acc =>
      if nv = "" then acc
      else
        match splitFirstEq nv with
        | none => acc
        | some (n, v) => if v = "" then acc else (unquotePlus n, unquotePlus v) :: acc)
    []

/-- Last value bound to `k` among parsed query pairs: `qs[k].pop()` on the
grouped `parse_qs` dict pops the final occurrence. -/
def qsLookupLast (pairs : List (String × String)) (k : String) : Option String :=
  ((pairs.filter (fun p => p.1 == k)).getLast?).map (·.2)

/-- Everything after the first occurrence of character `c`, if any. -/
def afterFirstChar (c : Char) : List Char → Option (List Char)
  | [] => none
  | x :: rest => if x = c then some rest else afterFirstChar c rest

/-- Query component of a URL as `urllib.parse.urlparse` extracts it:
drop the fragment (everything from the first `#`), then take everything
after the first `?`. -/
def queryOf (url : String) : String :=
  match afterFirstChar '?' (url.data.takeWhile (fun c => c ≠ '#')) with
  | some q => String.mk q
  | none => ""

/-- Everything after the first occurrence of `://`, if any. -/
def afterSchemeSep : List Char → Option (List Char)
  | ':' :: '/' :: '/' :: rest => some rest
  | _ :: rest => afterSchemeSep rest
  | [] => none

/-- Network-location component of a URL (`urlparse(...).netloc`): the
authority between `://` and the next `/`, `?` or `#`; empty when the URL
has no `://` (the only shapes this program meets). -/
def netlocOf (url : String) : String :=
  match afterSchemeSep url.data with
  | some rest => String.mk (rest.takeWhile (fun c => c ≠ '/' ∧ c ≠ '?' ∧ c ≠ '#'))
  | none => ""

/-- Attribute predicate of `BeautifulSoup.find`: for the multi-valued
`class` attribute a filter value matches any whitespace-separated token
(or the whole attribute string); other attributes compare by equality. -/
def attrMatches (e : Elem) (k v : String) : Bool :=
  match lookupStr e.attrs k with
  | none => false
  | some av =>
    if k == "class" then ((splitOnCharS ' ' av.data).map String.mk).contains v || av == v
    else av == v

/-- `soup.find(tag, attrs)`: first element with the given tag whose
attributes satisfy every filter entry. -/
def findEl (body : Html) (tag : String) (attrs : List (String × String)) : Option Elem :=
  body.find? (fun e => e.tag == tag && attrs.all (fun kv => attrMatches e kv.1 kv.2))

/-- `WEBAUTH_ENDPOINT` of `src/utils/webauth.py`. -/
def WEBAUTH_ENDPOINT : String := "https://login.uci.edu/ucinetid/webauth"

/-- `WEBREG_REDIRECT` of `src/sites/webreg.py`. -/
def WEBREG_REDIRECT : String := "https://www.reg.uci.edu/cgi-bin/webreg-redirect.sh"

/-- One entry of `AUTH_MARKERS`: host plus its authenticated-indicator
selector.  (The source also lists `anon` selectors per host; no code path
ever consults them, so they are omitted here.) -/
structure AuthMarker where
  host : String
  authTag : String
  authAttrs : List (String × String)
deriving DecidableEq

/-- `AUTH_MARKERS` of `src/utils/webauth.py` (the consulted part). -/
def AUTH_MARKERS : List AuthMarker :=
  [⟨"eee.uci.edu", "a", [("class", "logoutlink")]⟩,
   ⟨"www.reg.uci.edu", "span", [("class", "logout")]⟩]

/-- Marker configuration lookup by host (`parsed.netloc in AUTH_MARKERS`
followed by `AUTH_MARKERS[parsed.netloc]`). -/
def lookupMarker (h : String) : Option AuthMarker :=
  AUTH_MARKERS.find? (fun m => m.host == h)

/-- Model of `re.match` for the webauth pattern: one digit, then
`;url=`, then a non-empty greedy run of non-newline characters, which is
group 1.  Returns the captured target. -/
def matchRefreshAuth (s : String) : Option String :=
  match s.data with
  | c :: ';' :: 'u' :: 'r' :: 'l' :: '=' :: rest =>
    if c.isDigit then
      let t := rest.takeWhile (fun ch => ch ≠ '\n')
      if t.isEmpty then none else some (String.mk t)
    else none
  | _ => none

/-- Model of `re.match` for the webreg redirect pattern: one digit, `;`,
any number of spaces, `url=`, then a non-empty greedy run of non-newline
characters (group 1). -/
def matchRefreshReg (s : String) : Option String :=
  match s.data with
  | c :: ';' :: rest =>
    if c.isDigit then
      match rest.dropWhile (fun ch => ch = ' ') with
      | 'u' :: 'r' :: 'l' :: '=' :: rest2 =>
        let t := rest2.takeWhile (fun ch => ch ≠ '\n')
        if t.isEmpty then none else some (String.mk t)
      | _ => none
    else none
  | _ => none

/-- Credentials held by `WebAuthBot` (`__ucinetid`, `__password`). -/
structure Creds where
  ucinetid : String
  password : String
deriving DecidableEq

/-- Session state visible to the model: the `eee` augmentation flag set
by `attachSession`, and the index of the next physical request (standing
in for the evolving connection/cookie state). -/
structure SessState where
  eee : Bool
  n : Nat
deriving DecidableEq

/-- The exceptions of `src/utils/webauth.py`, plus the `KeyError` a
missing header raises inside `session_request`.  `unknown` carries the
optional message `WebAuthUnknownError` is raised with. -/
inductive WAErr where
  | failure
  | unknown (msg : Option String)
  | loop
  | keyError (k : String)
deriving DecidableEq

/-- One raw transport call, `requests.Session.request`: consults the
oracle at the current index, advances the index, and records the event. -/
def rawRequest (origin : Origin) (net : Net) (st : SessState) (req : Req) :
    Resp × SessState × List Event :=
  let r := net st.n req
  (r, ⟨st.eee, st.n + 1⟩, [⟨origin, st.eee, req, r⟩])

/-- The challenge decision inlined in `session_request` (webauth.py
lines 62-73): an SSO-endpoint final URL always needs authentication;
otherwise a marker-configured host with an HTML content type needs
authentication exactly when its authenticated marker is absent (the
header lookup `response.headers['content-type']` raises `KeyError` when
the header is missing); any other response does not. -/
def needsAuthE (r : Resp) : Except WAErr Bool :=
  if startsWithS r.url WEBAUTH_ENDPOINT then .ok true
  else
    match lookupMarker (netlocOf r.url) with
    | some mk =>
      match headerLookup r.headers "content-type" with
      | none => .error (.keyError "content-type")
      | some ct =>
        if startsWithS ct "text/html" then
          if (findEl r.body mk.authTag mk.authAttrs).isSome then .ok false else .ok true
        else .ok false
    | none => .ok false

/-- Handling of the login POST response in `WebAuthBot.authenticate`
(webauth.py lines 144-164): on an SSO-endpoint final URL, look for the
meta refresh directive and extract its target; otherwise bail with the
unknown error. -/
def processLoginResponse (r : Resp) : Except WAErr String :=
  if startsWithS r.url WEBAUTH_ENDPOINT then
    match findEl r.body "meta" [("http-equiv", "refresh")] with
    | none => .error .failure
    | some redirect =>
      match lookupStr redirect.attrs "content" with
      | none => .error (.unknown (some "Malformed meta tag"))
      | some c =>
        match matchRefreshAuth c with
        | none => .error (.unknown (some ("Malformed content attribute: " ++ c)))
        | some target => .ok target
  else .error (.unknown none)

/-- The fixed login form body POSTed to the SSO endpoint. -/
def loginData (creds : Creds) (resource : String) : List (String × String) :=
  [("referer", ""), ("return_url", resource), ("info_text", ""), ("info_url", ""),
   ("submit_type", ""), ("ucinetid", creds.ucinetid), ("password", creds.password),
   ("login_button", "Login")]

deriving instance DecidableEq for Except

/-- Result of `WebAuthBot.authenticate`: returned target or raised
error, final session state, issued physical requests. -/
structure WARes where
  result : Except WAErr String
  state : SessState
  trace : List Event
deriving DecidableEq

/-- `WebAuthBot.authenticate` (webauth.py lines 98-164): unwrap a
WebAuth-wrapper return URL via its `return_url` query parameter (the
grouped value list's last element, `qs['return_url'].pop()`), suspend the
session augmentation, POST the login form, restore the augmentation, and
interpret the response.  The POST goes through the decorated
`session.post`, which with the augmentation suspended is exactly one raw
transport call (see `sessionRequestGen_passthrough`). -/
def webauthAuthenticate (creds : Creds) (net : Net) (st : SessState) (returnUrl : String) :
    WARes :=
  let er :=
    if startsWithS returnUrl WEBAUTH_ENDPOINT then
      match qsLookupLast (parseQSL (queryOf returnUrl)) "return_url" with
      | some x => (returnUrl, x)
      | none => (WEBAUTH_ENDPOINT, returnUrl)
    else (WEBAUTH_ENDPOINT, returnUrl)
  let req : Req := ⟨"POST", er.1, [("return_url", er.2)], loginData creds er.2⟩
  let st1 : SessState := ⟨false, st.n⟩
  let (r, st2, tr) := rawRequest .authAgent net st1 req
  let st3 : SessState := ⟨true, st2.n⟩
  ⟨processLoginResponse r, st3, tr⟩

/-- Result of one wrapped session call: response or raised error, final
session state, issued physical requests. -/
structure SRRes where
  result : Except WAErr Resp
  state : SessState
  trace : List Event
deriving DecidableEq

/-- The decorated `session_request` (webauth.py lines 56-84),
parameterised by the authentication routine so the knot with
`webauthAuthenticate` can be tied without mutual recursion: pass through
when the augmentation is disabled; otherwise issue the request, decide
the challenge, and on a challenge authenticate and re-issue the same
method/params/body against the resolved target, raising the loop error
when the retried final URL is again the SSO endpoint. -/
def sessionRequestGen (auth : SessState → String → WARes) (net : Net) (st : SessState)
    (method url : String) (params dat : List (String × String)) : SRRes :=
  if st.eee = false then
    let (r, st1, tr) := rawRequest .wrapper net st ⟨method, url, params, dat⟩
    ⟨.ok r, st1, tr⟩
  else
    let (r, st1, tr1) := rawRequest .wrapper net st ⟨method, url, params, dat⟩
    match needsAuthE r with
    | .error e => ⟨.error e, st1, tr1⟩
    | .ok false => ⟨.ok r, st1, tr1⟩
    | .ok true =>
      match auth st1 url with
      | ⟨.error e, st2, tr2⟩ => ⟨.error e, st2, tr1 ++ tr2⟩
      | ⟨.ok target, st2, tr2⟩ =>
        let (r2, st3, tr3) := rawRequest .wrapper net st2 ⟨method, target, params, dat⟩
        if startsWithS r2.url WEBAUTH_ENDPOINT then ⟨.error .loop, st3, tr1 ++ tr2 ++ tr3⟩
        else ⟨.ok r2, st3, tr1 ++ tr2 ++ tr3⟩

/-- The wrapped request of a `WebAuthBot`-augmented session. -/
def sessionRequest (creds : Creds) (net : Net) (st : SessState) (method url : String)
    (params dat : List (String × String)) : SRRes :=
  sessionRequestGen (fun s u => webauthAuthenticate creds net s u) net st method url params dat

/-- Passthrough lemma justifying the inlining of the authentication
agent's POST as a raw call: with the augmentation suspended the
decorated request is exactly one raw transport call, whatever the
authentication routine. -/
theorem sessionRequestGen_passthrough (auth : SessState → String → WARes) (net : Net)
    (st : SessState) (method url : String) (params dat : List (String × String))
    (h : st.eee = false) :
    sessionRequestGen auth net st method url params dat =
      ⟨.ok (net st.n ⟨method, url, params, dat⟩), ⟨st.eee, st.n + 1⟩,
        [⟨.wrapper, st.eee, ⟨method, url, params, dat⟩, net st.n ⟨method, url, params, dat⟩⟩]⟩ := by
  simp [sessionRequestGen, rawRequest, h]

/-- Reference challenge decision, written from the specification text of
claim C4: true when the final URL starts with the SSO endpoint prefix;
otherwise, for a marker-configured host with an HTML content type, true
exactly when the authenticated marker is not found; otherwise false. -/
def needsAuthSpec (r : Resp) : Bool :=
  if startsWithS r.url WEBAUTH_ENDPOINT then true
  else
    match lookupMarker (netlocOf r.url) with
    | some mk =>
      match headerLookup r.headers "content-type" with
      | some ct => if startsWithS ct "text/html" then (findEl r.body mk.authTag mk.authAttrs).isNone else false
      | none => false
    | none => false

/-- The outcome granularity of claim C6: success with a target, a
credential failure, or a protocol failure. -/
inductive LoginOutcome where
  | success (target : String)
  | credentialFailure
  | protocolFailure
deriving DecidableEq

/-- Outcome of the code's login-response handling, at claim C6's
granularity: the returned target, or which failure class was raised. -/
def outcomeOfCode : Except WAErr String → LoginOutcome
  | .ok t => .success t
  | .error .failure => .credentialFailure
  | .error _ => .protocolFailure

/-- Reference outcome classification written from the specification text
of claim C6 ("the final URL is the SSO endpoint" read, as everywhere else
in the spec, as matching the SSO endpoint prefix): success when an
SSO-endpoint final URL carries a refresh directive whose content matches
the digit-semicolon-url pattern; credential failure when no refresh
directive is present; protocol failure when the content attribute is
missing or malformed, or the final URL is not the SSO endpoint. -/
def loginOutcomeSpec (r : Resp) : LoginOutcome :=
  if startsWithS r.url WEBAUTH_ENDPOINT then
    match findEl r.body "meta" [("http-equiv", "refresh")] with
    | none => .credentialFailure
    | some redirect =>
      match lookupStr redirect.attrs "content" with
      | none => .protocolFailure
      | some c =>
        match matchRefreshAuth c with
        | none => .protocolFailure
        | some target => .success target
  else .protocolFailure

/-- The exceptions of `src/sites/webreg.py` that the modelled paths can
raise, plus the `KeyError` of a missing `value` attribute on the hidden
call field. -/
inductive WRErr where
  | unavailable
  | unknownMsg (msg : String)
  | auth
  | keyError (k : String)
deriving DecidableEq

/-- `NavigatorState`: `_url`, `_curPage`, `_call` of the `WebReg`
instance. -/
structure WRState where
  url : String
  curPage : String
  call : String
deriving DecidableEq

/-- Result of `WebReg.authenticate`: unit or raised error, the instance
state after the call (the source mutates `_url` before it checks for the
call field, so a failed call can leave a partial update), the next oracle
index, and the issued requests. -/
structure WRARes where
  result : Except WRErr Unit
  state : WRState
  n : Nat
  trace : List Event
deriving DecidableEq

/-- `WebReg.authenticate` (webreg.py lines 87-113): GET the WebReg
redirect entry point, require a meta refresh directive with a content
attribute (else unavailable), require the content to match the redirect
pattern (else unknown "Malformed redirect"), GET the landing page,
record its final URL, require a hidden `call` input (else the
authentication error), and store its `value` (a value-less input raises
`KeyError`). -/
def wrAuthenticate (net : Net) (n : Nat) (st : WRState) : WRARes :=
  let rdreq : Req := ⟨"GET", WEBREG_REDIRECT, [], []⟩
  let rdpage := net n rdreq
  let ev1 : Event := ⟨.navigator, true, rdreq, rdpage⟩
  match findEl rdpage.body "meta" [("http-equiv", "refresh")] with
  | none => ⟨.error .unavailable, st, n + 1, [ev1]⟩
  | some redirect =>
    match lookupStr redirect.attrs "content" with
    | none => ⟨.error .unavailable, st, n + 1, [ev1]⟩
    | some c =>
      match matchRefreshReg c with
      | none => ⟨.error (.unknownMsg "Malformed redirect"), st, n + 1, [ev1]⟩
      | some loginurl =>
        let hreq : Req := ⟨"GET", loginurl, [], []⟩
        let home := net (n + 1) hreq
        let ev2 : Event := ⟨.navigator, true, hreq, home⟩
        let st1 : WRState := ⟨home.url, st.curPage, st.call⟩
        match findEl home.body "input" [("type", "hidden"), ("name", "call")] with
        | none => ⟨.error .auth, st1, n + 2, [ev1, ev2]⟩
        | some ci =>
          match lookupStr ci.attrs "value" with
          | none => ⟨.error (.keyError "value"), st1, n + 2, [ev1, ev2]⟩
          | some v => ⟨.ok (), ⟨home.url, st.curPage, v⟩, n + 2, [ev1, ev2]⟩

/-- Python `dict.update`: keys of `base` keep their position with values
overridden by `upd`, new keys of `upd` are appended in order. -/
def mergeDict (base upd : List (String × String)) : List (String × String) :=
  base.map (fun kv => (kv.1, (lookupStr upd kv.1).getD kv.2))
    ++ upd.filter (fun kv => (lookupStr base kv.1).isNone)

/-- The POST body composed by `WebReg.submit`: page token, session call
token and the fixed submit marker, merged with the caller data. -/
def wrPostBody (st : WRState) (dat : List (String × String)) : List (String × String) :=
  mergeDict [("page", st.curPage), ("call", st.call), ("submit", "")] dat

/-- Value returned by `WebReg.submit`: the Python `False` of the
exhausted-retry branch, or a response object. -/
inductive SubmitRet where
  | retFalse
  | retResp (r : Resp)
deriving DecidableEq

/-- Python truthiness of a `WebReg.submit` return value: `False` is
falsy, a response object is falsy exactly on an error status. -/
def truthy : SubmitRet → Bool
  | .retFalse => false
  | .retResp r => r.ok

/-- Result of `WebReg.submit`: returned value or raised error, instance
state, next oracle index, issued requests. -/
structure WSRes where
  result : Except WRErr SubmitRet
  state : WRState
  n : Nat
  trace : List Event
deriving DecidableEq

/-- The login-box logged-out marker test of `WebReg.submit` (line 131). -/
def loginBoxPresent (r : Resp) : Bool :=
  (findEl r.body "table" [("id", "webreg-login-box")]).isSome

/-- `WebReg.submit` with `nologin=True` (webreg.py lines 115-141, the
no-retry instantiation): POST the composed body; when the logged-out
marker is present return `False`, otherwise return the response. -/
def wrSubmitNologin (net : Net) (n : Nat) (st : WRState) (dat : List (String × String)) :
    WSRes :=
  let post := wrPostBody st dat
  let req : Req := ⟨"POST", st.url, [], post⟩
  let resp := net n req
  let ev : Event := ⟨.navigator, true, req, resp⟩
  if loginBoxPresent resp then
    ⟨.ok .retFalse, st, n + 1, [ev]⟩
  else
    ⟨.ok (.retResp resp), st, n + 1, [ev]⟩

/-- `WebReg.submit` with the default `nologin=False` (webreg.py lines
115-141): POST the composed body; when the logged-out marker is present,
re-authenticate and retry the same data once with no further retry; a
falsy retry result raises the authentication error; in every non-raising
case the function returns the FIRST response (`return response` at line
141 — the retried response `r` is discarded). -/
def wrSubmit (net : Net) (n : Nat) (st : WRState) (dat : List (String × String)) : WSRes :=
  let post := wrPostBody st dat
  let req : Req := ⟨"POST", st.url, [], post⟩
  let resp := net n req
  let ev : Event := ⟨.navigator, true, req, resp⟩
  if loginBoxPresent resp then
    match wrAuthenticate net (n + 1) st with
    | ⟨.error e, st2, n2, tr2⟩ => ⟨.error e, st2, n2, ev :: tr2⟩
    | ⟨.ok _, st2, n2, tr2⟩ =>
      let inner := wrSubmitNologin net n2 st2 dat
      match inner.result with
      | .error e => ⟨.error e, inner.state, inner.n, ev :: (tr2 ++ inner.trace)⟩
      | .ok ret =>
        if truthy ret then ⟨.ok (.retResp resp), inner.state, inner.n, ev :: (tr2 ++ inner.trace)⟩
        else ⟨.error .auth, inner.state, inner.n, ev :: (tr2 ++ inner.trace)⟩
  else ⟨.ok (.retResp resp), st, n + 1, [ev]⟩

/-- Outcome granularity of claim C7 for `WebReg.authenticate`.
`keyFailure` is the bucket for the `KeyError` a value-less hidden call
field raises; it corresponds to no outcome the claim lists. -/
inductive WRAuthOutcome where
  | unavailable
  | unknownErr
  | authError
  | keyFailure
  | initialized (url call : String)
deriving DecidableEq

/-- Outcome of a `WebReg.authenticate` run at claim C7's granularity. -/
def wrOutcome (x : WRARes) : WRAuthOutcome :=
  match x.result with
  | .error .unavailable => .unavailable
  | .error (.unknownMsg _) => .unknownErr
  | .error .auth => .authError
  | .error (.keyError _) => .keyFailure
  | .ok _ => .initialized x.state.url x.state.call

/-- Reference outcome for claim C7 as stated: unavailable when no
redirect directive is found on the entry page; unknown when the
directive is present but its content is malformed (no usable content
matching the redirect pattern); the authentication error when the
landing page carries no hidden call token; otherwise the navigator state
(URL and call token) from the landing page. -/
def wrAuthSpecClaim (net : Net) (n : Nat) : WRAuthOutcome :=
  let rdpage := net n ⟨"GET", WEBREG_REDIRECT, [], []⟩
  match findEl rdpage.body "meta" [("http-equiv", "refresh")] with
  | none => .unavailable
  | some redirect =>
    match (lookupStr redirect.attrs "content").bind matchRefreshReg with
    | none => .unknownErr
    | some t =>
      let home := net (n + 1) ⟨"GET", t, [], []⟩
      match findEl home.body "input" [("type", "hidden"), ("name", "call")] with
      | none => .authError
      | some ci => .initialized home.url ((lookupStr ci.attrs "value").getD "")

/-- Reference outcome for the amended claim C7: a directive lacking a
content attribute is also unavailable; only a present-but-unmatching
content attribute is the unknown error. -/
def wrAuthSpecAmended (net : Net) (n : Nat) : WRAuthOutcome :=
  let rdpage := net n ⟨"GET", WEBREG_REDIRECT, [], []⟩
  match findEl rdpage.body "meta" [("http-equiv", "refresh")] with
  | none => .unavailable
  | some redirect =>
    match lookupStr redirect.attrs "content" with
    | none => .unavailable
    | some c =>
      match matchRefreshReg c with
      | none => .unknownErr
      | some t =>
        let home := net (n + 1) ⟨"GET", t, [], []⟩
        match findEl home.body "input" [("type", "hidden"), ("name", "call")] with
        | none => .authError
        | some ci => .initialized home.url ((lookupStr ci.attrs "value").getD "")

/-- Redirect target the entry page of `WebReg.authenticate` resolves to,
when all of directive, content attribute and pattern match are there. -/
def wrRedirectTarget (net : Net) (n : Nat) : Option String :=
  (findEl (net n ⟨"GET", WEBREG_REDIRECT, [], []⟩).body "meta" [("http-equiv", "refresh")]).bind
    (fun redirect => (lookupStr redirect.attrs "content").bind matchRefreshReg)

/-- One token of the deterministic matcher that stands in for `re.match`
on the `WEBREG_ERRORS` patterns: a literal, or a greedy non-empty
character-class repetition, optionally capturing.  In every source
pattern the character class of a repetition cannot match the first
character of what follows, so greedy maximal munch agrees with
backtracking regex semantics. -/
inductive RTok where
  | lit (s : String)
  | cls (p : Char → Bool) (capture : Bool)

/-- Run a token list against the input (anchored at the start, a prefix
match like `re.match`); on success return the captured groups in
order. -/
def runToks : List RTok → List Char → Option (List String)
  | [], _ => some []
  | .lit s :: ts, input =>
    if s.data.isPrefixOf input then runToks ts (input.drop s.length) else none
  | .cls p cap :: ts, input =>
    let m := input.takeWhile p
    if m.isEmpty then none
    else (runToks ts (input.dropWhile p)).map (fun gs => if cap then String.mk m :: gs else gs)

/-- The error kinds of the `WEBREG_ERRORS` table. -/
inductive ErrTag where
  | timeConflict
  | prerequisite
  | classLevel
  | notEnrolled
deriving DecidableEq

/-- The enrollment-error taxonomy raised by `WebReg.enroll`: the four
classified kinds (with their captured arguments) and the generic
`WebRegEnrollmentError` carrying the message verbatim. -/
inductive EnrollErr where
  | timeConflict (args : List String)
  | prerequisite
  | classLevel (args : List String)
  | notEnrolled
  | unknown (msg : String)
deriving DecidableEq

/-- One row of `WEBREG_ERRORS`: error kind, pattern, and capture-group
indices (`none` models the `False` of a no-capture row). -/
structure ErrRule where
  tag : ErrTag
  toks : List RTok
  groups : Option (List Nat)

/-- `WEBREG_ERRORS` (webreg.py lines 57-62), with each regex transcribed
into matcher tokens: escaped literals stay literal text, ` +` is a space
repetition, `([0-9]+)` and `([A-Za-z]+)` are capturing repetitions. -/
def WEBREG_ERRORS : List ErrRule :=
  [⟨.timeConflict,
    [.lit "Sorry, your class was not added. Meeting time of this course conflicts with the time of another course in which you are enrolled or waitlisted.",
     .cls (fun c => c = ' ') false,
     .cls Char.isDigit true],
    some [1]⟩,
   ⟨.prerequisite,
    [.lit "Sorry, your class was not added. You are ineligible to enroll due to prerequisites, corequisites, or repeat restrictions. View the Schedule of Classes comments prior to contacting your academic advisor."],
    none⟩,
   ⟨.classLevel,
    [.lit "Sorry, your class was not added. Only students within the ",
     .cls (fun c => c.isAlpha) true,
     .lit " class level (",
     .cls Char.isDigit true,
     .lit " or more units) are eligible for enrollment in this course."],
    some [1, 2]⟩,
   ⟨.notEnrolled,
    [.lit "Your class was NOT DROPPED. You are not currently enrolled in this course. We are unable to process your drop request."],
    none⟩]

/-- Build the raised error from a matched rule: with capture indices,
`exception([matches.group(x) for x in groups])`; without, `exception()`. -/
def mkEnrollErr (tag : ErrTag) (args : List String) : EnrollErr :=
  match tag with
  | .timeConflict => .timeConflict args
  | .prerequisite => .prerequisite
  | .classLevel => .classLevel args
  | .notEnrolled => .notEnrolled

/-- Ordered first-match-wins evaluation of the rule table (the loop of
webreg.py lines 191-199). -/
def classifyGo (msg : String) : List ErrRule → EnrollErr
  | [] => .unknown msg
  | r :: rs =>
    match runToks r.toks msg.data with
    | some caps =>
      match r.groups with
      | some gs => mkEnrollErr r.tag (gs.map (fun i => (caps.get? (i - 1)).getD ""))
      | none => mkEnrollErr r.tag []
    | none => classifyGo msg rs

/-- The enrollment-error classification of `WebReg.enroll` applied to
the error-region message: first matching `WEBREG_ERRORS` row wins, no
match yields the generic enrollment error with the verbatim message. -/
def classifyEnrollmentMsg (msg : String) : EnrollErr :=
  classifyGo msg WEBREG_ERRORS

set_option maxRecDepth 8192

/-- Helper: every physical request the authentication agent issues is
tagged with its own origin, so the wrapper-origin restriction of its
trace is empty. -/
theorem webauthAuthenticate_wrapperFree (creds : Creds) (net : Net) (st : SessState)
    (rurl : String) :
    ((webauthAuthenticate creds net st rurl).trace.filter
      (fun e => e.origin == Origin.wrapper)) = [] := by
  simp [webauthAuthenticate, rawRequest]

/-- Helper: `WebReg.authenticate` only issues GET requests, so the
POST-restriction of its trace is empty. -/
theorem wrAuthenticate_noPost (net : Net) (n : Nat) (st : WRState) :
    ((wrAuthenticate net n st).trace.filter (fun e => e.req.method == "POST")) = [] := by
  unfold wrAuthenticate
  dsimp only
  split
  · simp
  · split
    · simp
    · split
      · simp
      · split
        · simp
        · split <;> simp

/-- C9: the enrollment-error classification, evaluated on the
time-conflict message with trailing code `12345`, yields the
time-conflict error with captured code `"12345"`; evaluated on a message
matching no rule, it yields the generic enrollment error carrying the
message verbatim. -/
theorem claim9_classifier_examples :
    classifyEnrollmentMsg "Sorry, your class was not added. Meeting time of this course conflicts with the time of another course in which you are enrolled or waitlisted.  12345"
      = EnrollErr.timeConflict ["12345"] ∧
    classifyEnrollmentMsg "Some new server message"
      = EnrollErr.unknown "Some new server message" :=
  ⟨rfl, rfl⟩

/-- C6: for every login POST response, the outcome of the code's
response handling in `WebAuthBot.authenticate` equals the reference
classification of claim C6: success with the extracted target exactly on
an SSO-endpoint final URL with a well-formed refresh directive,
credential failure exactly on an SSO-endpoint final URL with no refresh
directive, and protocol failure exactly on a missing or malformed
content attribute or a non-SSO final URL. -/
theorem claim6_login_outcome (r : Resp) :
    outcomeOfCode (processLoginResponse r) = loginOutcomeSpec r := by
  unfold processLoginResponse loginOutcomeSpec
  by_cases h : startsWithS r.url WEBAUTH_ENDPOINT
  · simp only [h, if_true]
    rcases hf : findEl r.body "meta" [("http-equiv", "refresh")] with _ | redirect
    · rfl
    · dsimp only
      rcases hc : lookupStr redirect.attrs "content" with _ | c
      · rfl
      · dsimp only
        rcases hm : matchRefreshAuth c with _ | t <;> rfl
  · simp only [h, if_false]
    rfl

/-- Concrete response refuting claim C4 as stated: a marker-host final
URL, no SSO redirect, and no content-type header. -/
def c4resp : Resp := ⟨"https://www.reg.uci.edu/cgi-bin/wrcgibrs.exe", [], [], true⟩

/-- C4, counterexample: on a marker-host response without a content-type
header the code's challenge decision raises a key-lookup error, while
the claim's reference definition returns false, so the decision does not
equal the reference on every response. -/
theorem claim4_counterexample :
    needsAuthE c4resp ≠ Except.ok (needsAuthSpec c4resp) := by
  decide

/-- C4, amended: for every response that carries a content-type header
whenever its final-URL host is in the marker configuration (and the
final URL does not already start with the SSO endpoint prefix), the
code's challenge decision equals the reference definition. -/
theorem claim4_amended_decision (r : Resp)
    (h : startsWithS r.url WEBAUTH_ENDPOINT = false →
      (lookupMarker (netlocOf r.url)).isSome = true →
      (headerLookup r.headers "content-type").isSome = true) :
    needsAuthE r = Except.ok (needsAuthSpec r) := by
  unfold needsAuthE needsAuthSpec
  by_cases hu : startsWithS r.url WEBAUTH_ENDPOINT
  · simp [hu]
  · simp only [hu, if_false]
    rcases hm : lookupMarker (netlocOf r.url) with _ | mk
    · rfl
    · dsimp only
      have hh := h (by simpa using hu) (by simp [hm])
      rcases hc : headerLookup r.headers "content-type" with _ | ct
      · rw [hc] at hh
        simp at hh
      · dsimp only
        by_cases ht : startsWithS ct "text/html"
        · simp only [ht, if_true]
          rcases hfe : findEl r.body mk.authTag mk.authAttrs with _ | el <;> simp [hfe]
        · simp [ht]

/-- Witness for the amended C4 at a concrete response: marker host,
content-type present, authenticated marker absent, decision true on both
sides. -/
theorem claim4_amended_witness :
    needsAuthE ⟨"https://eee.uci.edu/myeee/", [("Content-Type", "text/html; charset=utf-8")], [], true⟩
      = Except.ok (needsAuthSpec ⟨"https://eee.uci.edu/myeee/", [("Content-Type", "text/html; charset=utf-8")], [], true⟩) :=
  claim4_amended_decision _ (by decide)

/-- C8: for every call to `WebAuthBot.authenticate` on a session whose
augmentation flag is enabled, the flag equals its pre-call value in the
state returned on every exit path, and the call issues exactly one
physical request, with the augmentation suspended at the moment it is
issued. -/
theorem claim8_flag_restored (creds : Creds) (net : Net) (st : SessState) (rurl : String)
    (h : st.eee = true) :
    (webauthAuthenticate creds net st rurl).state.eee = st.eee ∧
    (webauthAuthenticate creds net st rurl).trace.map (fun e => e.eeeAtIssue) = [false] := by
  constructor
  · simp [webauthAuthenticate, rawRequest, h]
  · simp [webauthAuthenticate, rawRequest]

/-- Witness for C8 at a concrete session and return URL. -/
theorem claim8_flag_restored_witness :
    (webauthAuthenticate ⟨"panteater", "secret"⟩ (fun _ _ => ⟨"https://x.example/", [], [], true⟩)
        ⟨true, 0⟩ "https://eee.uci.edu/").state.eee = (⟨true, 0⟩ : SessState).eee ∧
    (webauthAuthenticate ⟨"panteater", "secret"⟩ (fun _ _ => ⟨"https://x.example/", [], [], true⟩)
        ⟨true, 0⟩ "https://eee.uci.edu/").trace.map (fun e => e.eeeAtIssue) = [false] :=
  claim8_flag_restored _ _ _ _ rfl

/-- C5: for every call to `WebAuthBot.authenticate` whose return URL is
itself an SSO URL carrying a `return_url` query parameter with value
`x`, the single login POST uses `x` as the protected-resource URL, both
as the `return_url` query parameter and as the `return_url` body field
(the POST target being the wrapper URL); for any other return URL, the
return URL itself is the protected resource and the canonical SSO
endpoint is the POST target. -/
theorem claim5_resource_unwrap (creds : Creds) (net : Net) (st : SessState) (rurl : String) :
    (∀ x, startsWithS rurl WEBAUTH_ENDPOINT = true →
      qsLookupLast (parseQSL (queryOf rurl)) "return_url" = some x →
      (webauthAuthenticate creds net st rurl).trace.map (fun e => e.req)
        = [⟨"POST", rurl, [("return_url", x)], loginData creds x⟩]) ∧
    (startsWithS rurl WEBAUTH_ENDPOINT = false →
      (webauthAuthenticate creds net st rurl).trace.map (fun e => e.req)
        = [⟨"POST", WEBAUTH_ENDPOINT, [("return_url", rurl)], loginData creds rurl⟩]) ∧
    (qsLookupLast (parseQSL (queryOf rurl)) "return_url" = none →
      (webauthAuthenticate creds net st rurl).trace.map (fun e => e.req)
        = [⟨"POST", WEBAUTH_ENDPOINT, [("return_url", rurl)], loginData creds rurl⟩]) := by
  refine ⟨?_, ?_, ?_⟩
  · intro x h1 h2
    simp [webauthAuthenticate, rawRequest, h1, h2]
  · intro h1
    simp [webauthAuthenticate, rawRequest, h1]
  · intro h2
    by_cases h1 : startsWithS rurl WEBAUTH_ENDPOINT
    · simp [webauthAuthenticate, rawRequest, h1, h2]
    · simp [webauthAuthenticate, rawRequest, h1]

/-- The wrapped SSO URL of the docstring example, with a percent-encoded
`return_url` parameter. -/
def c5url : String :=
  "https://login.uci.edu/ucinetid/webauth?return_url=http%3A%2F%2Fcheckmate.ics.uci.edu"

/-- Witness for C5: the wrapper URL is unwrapped to the decoded
protected resource, which appears as both query parameter and body
field. -/
theorem claim5_resource_unwrap_witness :
    (webauthAuthenticate ⟨"panteater", "secret"⟩ (fun _ _ => ⟨"", [], [], true⟩)
        ⟨true, 0⟩ c5url).trace.map (fun e => e.req)
      = [⟨"POST", c5url, [("return_url", "http://checkmate.ics.uci.edu")],
          loginData ⟨"panteater", "secret"⟩ "http://checkmate.ics.uci.edu"⟩] :=
  (claim5_resource_unwrap _ _ _ _).1 "http://checkmate.ics.uci.edu" rfl rfl

/-- C10: for every wrapped request on the augmented session whose first
response has a non-SSO final URL with a marker-configured host but no
content-type header, the wrapped call raises the key-lookup error
instead of returning a response. -/
theorem claim10_missing_header (creds : Creds) (net : Net) (st : SessState) (method url : String)
    (params dat : List (String × String)) (h : st.eee = true)
    (h1 : startsWithS (net st.n ⟨method, url, params, dat⟩).url WEBAUTH_ENDPOINT = false)
    (h2 : (lookupMarker (netlocOf (net st.n ⟨method, url, params, dat⟩).url)).isSome = true)
    (h3 : headerLookup (net st.n ⟨method, url, params, dat⟩).headers "content-type" = none) :
    (sessionRequest creds net st method url params dat).result
      = Except.error (WAErr.keyError "content-type") := by
  have hna : needsAuthE (net st.n ⟨method, url, params, dat⟩)
      = Except.error (WAErr.keyError "content-type") := by
    unfold needsAuthE
    rw [h1]
    rcases hm : lookupMarker (netlocOf (net st.n ⟨method, url, params, dat⟩).url) with _ | mk
    · rw [hm] at h2
      simp at h2
    · dsimp only
      rw [h3]
      simp
  unfold sessionRequest sessionRequestGen rawRequest
  rw [if_neg (by simp [h])]
  dsimp only
  rw [hna]

/-- Transport oracle answering every request with a marker-host page
that has no headers at all. -/
def c10net : Net := fun _ _ => ⟨"https://www.reg.uci.edu/cgi-bin/wrcgibrs.exe", [], [], true⟩

/-- Witness for C10 at a concrete session and oracle. -/
theorem claim10_missing_header_witness :
    (sessionRequest ⟨"panteater", "secret"⟩ c10net ⟨true, 0⟩ "GET"
        "https://www.reg.uci.edu/" [] []).result
      = Except.error (WAErr.keyError "content-type") :=
  claim10_missing_header _ _ _ _ _ _ _ rfl rfl rfl rfl

/-- C2: for every wrapped request on the augmented session, the wrapper
issues at most two physical requests of the logical call (the original
plus at most one re-issue against the target resolved by
authentication; the authentication agent's own login POST is traced
under its own origin), and whenever the re-issued request's final URL
again starts with the SSO endpoint prefix the call raises the
login-loop error instead of returning a response. -/
theorem claim2_two_requests (creds : Creds) (net : Net) (st : SessState) (method url : String)
    (params dat : List (String × String)) (h : st.eee = true) :
    ((sessionRequest creds net st method url params dat).trace.filter
        (fun e => e.origin == Origin.wrapper)).length ≤ 2 ∧
    (∀ e1 e2, (sessionRequest creds net st method url params dat).trace.filter
          (fun e => e.origin == Origin.wrapper) = [e1, e2] →
        startsWithS e2.resp.url WEBAUTH_ENDPOINT = true →
        (sessionRequest creds net st method url params dat).result = Except.error WAErr.loop) := by
  unfold sessionRequest sessionRequestGen rawRequest
  rw [if_neg (by simp [h])]
  dsimp only
  rcases hna : needsAuthE (net st.n ⟨method, url, params, dat⟩) with e | b
  · dsimp only
    constructor
    · simp
    · intro e1 e2 hf
      simp at hf
  · cases b
    · dsimp only
      constructor
      · simp
      · intro e1 e2 hf
        simp at hf
    · dsimp only
      rcases hwa : webauthAuthenticate creds net ⟨st.eee, st.n + 1⟩ url with ⟨res2, st2, tr2⟩
      have htr2 : tr2.filter (fun e => e.origin == Origin.wrapper) = [] := by
        have hx := webauthAuthenticate_wrapperFree creds net ⟨st.eee, st.n + 1⟩ url
        rw [hwa] at hx
        exact hx
      cases res2 with
      | error e2 =>
        dsimp only
        constructor
        · simp [List.filter_append, htr2]
        · intro e1 e2 hf
          simp [List.filter_append, htr2] at hf
      | ok target =>
        dsimp only
        by_cases hl : startsWithS (net st2.n ⟨method, target, params, dat⟩).url WEBAUTH_ENDPOINT
        · rw [if_pos hl]
          dsimp only
          constructor
          · simp [List.filter_append, htr2]
          · intro e1 e2 hf hs
            rfl
        · rw [if_neg hl]
          dsimp only
          constructor
          · simp [List.filter_append, htr2]
          · intro e1 e2 hf hs
            simp [List.filter_append, htr2] at hf
            rw [← hf.2] at hs
            exact absurd hs hl

/-- Transport oracle answering with an unconfigured host, so the
wrapped call needs no authentication. -/
def c2net : Net := fun _ _ => ⟨"https://checkmate.ics.uci.edu/", [("Content-Type", "text/html")], [], true⟩

/-- Witness for C2 at a concrete session and oracle. -/
theorem claim2_two_requests_witness :
    ((sessionRequest ⟨"panteater", "secret"⟩ c2net ⟨true, 0⟩ "GET"
        "https://checkmate.ics.uci.edu/" [] []).trace.filter
        (fun e => e.origin == Origin.wrapper)).length ≤ 2 ∧
    (∀ e1 e2, (sessionRequest ⟨"panteater", "secret"⟩ c2net ⟨true, 0⟩ "GET"
          "https://checkmate.ics.uci.edu/" [] []).trace.filter
          (fun e => e.origin == Origin.wrapper) = [e1, e2] →
        startsWithS e2.resp.url WEBAUTH_ENDPOINT = true →
        (sessionRequest ⟨"panteater", "secret"⟩ c2net ⟨true, 0⟩ "GET"
          "https://checkmate.ics.uci.edu/" [] []).result = Except.error WAErr.loop) :=
  claim2_two_requests _ _ _ _ _ _ _ rfl

/-- First response of the C1 run: the logged-out page with the WebReg
login box. -/
def c1resp0 : Resp := ⟨"https://wr.example/menu", [], [⟨"table", [("id", "webreg-login-box")]⟩], true⟩

/-- Entry page of the C1 re-authentication, with a well-formed redirect
directive. -/
def c1resp1 : Resp := ⟨WEBREG_REDIRECT, [],
  [⟨"meta", [("http-equiv", "refresh"), ("content", "0; url=https://wr.example/login")]⟩], true⟩

/-- Landing page of the C1 re-authentication, with a hidden call
field. -/
def c1resp2 : Resp := ⟨"https://wr.example/home", [],
  [⟨"input", [("type", "hidden"), ("name", "call"), ("value", "54321")]⟩], true⟩

/-- Response to the C1 retried submission: a normal page without the
login box. -/
def c1resp3 : Resp := ⟨"https://wr.example/home", [], [⟨"div", [("class", "content")]⟩], true⟩

/-- Transport oracle of the C1 run: logged-out page, successful
re-authentication, successful retry. -/
def c1net : Net := fun n _ =>
  if n = 0 then c1resp0 else if n = 1 then c1resp1 else if n = 2 then c1resp2 else c1resp3

/-- Navigator state at the start of the C1 run. -/
def c1st : WRState := ⟨"https://wr.example/old", "enrollQtrMenu", "0000"⟩

/-- C1: evaluation of `WebReg.submit` at the failing input, a run whose
first response carries the logged-out marker and whose retried
submission succeeds: the value returned to the caller is the FIRST
(logged-out) response, not the response of the retried submission (the
run's last response), so the re-login is not invisible to the caller as
the claim states — `submit` discards `r` and executes `return response`
(webreg.py line 141). -/
theorem claim1_returns_first_response :
    (wrSubmit c1net 0 c1st []).result = Except.ok (SubmitRet.retResp c1resp0) ∧
    ((wrSubmit c1net 0 c1st []).trace.map (fun e => e.resp)).getLast? = some c1resp3 ∧
    c1resp0 ≠ c1resp3 :=
  ⟨rfl, rfl, by decide⟩

/-- C3: for every call to `WebReg.submit` with retry enabled whose first
response carries the logged-out marker, whose re-authentication
succeeds, and whose retried submission carries the marker again, the
call raises the authentication error, and exactly two POST submissions
of the form data are issued (re-authentication itself only issues
GETs). -/
theorem claim3_retry_once (net : Net) (n : Nat) (st st2 : WRState) (n2 : Nat)
    (tr2 : List Event) (dat : List (String × String))
    (h1 : loginBoxPresent (net n ⟨"POST", st.url, [], wrPostBody st dat⟩) = true)
    (h2 : wrAuthenticate net (n + 1) st = ⟨.ok (), st2, n2, tr2⟩)
    (h3 : loginBoxPresent (net n2 ⟨"POST", st2.url, [], wrPostBody st2 dat⟩) = true) :
    (wrSubmit net n st dat).result = Except.error WRErr.auth ∧
    ((wrSubmit net n st dat).trace.filter (fun e => e.req.method == "POST")).length = 2 := by
  have htr2 : tr2.filter (fun e => e.req.method == "POST") = [] := by
    have hx := wrAuthenticate_noPost net (n + 1) st
    rw [h2] at hx
    exact hx
  unfold wrSubmit wrSubmitNologin
  dsimp only
  rw [h1, if_pos rfl, h2]
  dsimp only
  rw [h3, if_pos rfl]
  dsimp only
  constructor
  · rfl
  · simp [truthy, List.filter_append, htr2]

/-- Logged-out page used twice in the C3 witness run. -/
def c3r0 : Resp := ⟨"https://wr.example/menu", [], [⟨"table", [("id", "webreg-login-box")]⟩], true⟩

/-- Entry page of the C3 witness re-authentication. -/
def c3r1 : Resp := ⟨WEBREG_REDIRECT, [],
  [⟨"meta", [("http-equiv", "refresh"), ("content", "0; url=https://wr.example/login")]⟩], true⟩

/-- Landing page of the C3 witness re-authentication. -/
def c3r2 : Resp := ⟨"https://wr.example/home", [],
  [⟨"input", [("type", "hidden"), ("name", "call"), ("value", "54321")]⟩], true⟩

/-- Transport oracle of the C3 witness run: logged out, successful
re-authentication, logged out again. -/
def c3net : Net := fun n _ =>
  if n = 0 then c3r0 else if n = 1 then c3r1 else if n = 2 then c3r2 else c3r0

/-- Navigator state at the start of the C3 witness run. -/
def c3st : WRState := ⟨"https://wr.example/old", "enrollQtrMenu", "0000"⟩

/-- Witness for C3 at a concrete run with two consecutive logout
markers. -/
theorem claim3_retry_once_witness :
    (wrSubmit c3net 0 c3st []).result = Except.error WRErr.auth ∧
    ((wrSubmit c3net 0 c3st []).trace.filter (fun e => e.req.method == "POST")).length = 2 :=
  claim3_retry_once c3net 0 c3st ⟨"https://wr.example/home", "enrollQtrMenu", "54321"⟩ 3
    [⟨.navigator, true, ⟨"GET", WEBREG_REDIRECT, [], []⟩, c3r1⟩,
     ⟨.navigator, true, ⟨"GET", "https://wr.example/login", [], []⟩, c3r2⟩]
    [] rfl rfl rfl

/-- Entry page refuting claim C7 as stated: a refresh directive that
lacks a content attribute. -/
def c7resp : Resp := ⟨WEBREG_REDIRECT, [], [⟨"meta", [("http-equiv", "refresh")]⟩], true⟩

/-- Transport oracle of the C7 counterexample run. -/
def c7net : Net := fun _ _ => c7resp

/-- C7, counterexample: on an entry page whose redirect directive is
present but lacks a content attribute, `WebReg.authenticate` raises the
unavailable error (webreg.py line 95 lumps a missing content attribute
into the no-directive case), while the claim's outcome assignment makes
a directive with malformed content the unknown error. -/
theorem claim7_counterexample :
    wrOutcome (wrAuthenticate c7net 0 ⟨"", "enrollQtrMenu", "0000"⟩) = WRAuthOutcome.unavailable ∧
    wrAuthSpecClaim c7net 0 = WRAuthOutcome.unknownErr :=
  ⟨rfl, rfl⟩

/-- C7, amended: when every hidden call field the landing page may carry
has a value attribute, the outcome of `WebReg.authenticate` is exactly:
unavailable when no redirect directive is found or the directive lacks a
content attribute; the unknown error when the content attribute is
present but malformed; the authentication error when the landing page
carries no hidden call field; otherwise the navigator state (URL and
call token) initialized from the landing page. -/
theorem claim7_amended_outcome (net : Net) (n : Nat) (st : WRState)
    (h : ∀ t ci, wrRedirectTarget net n = some t →
      findEl (net (n + 1) ⟨"GET", t, [], []⟩).body "input" [("type", "hidden"), ("name", "call")] = some ci →
      (lookupStr ci.attrs "value").isSome = true) :
    wrOutcome (wrAuthenticate net n st) = wrAuthSpecAmended net n := by
  unfold wrAuthenticate wrAuthSpecAmended
  dsimp only
  rcases hf : findEl (net n ⟨"GET", WEBREG_REDIRECT, [], []⟩).body "meta" [("http-equiv", "refresh")] with _ | redirect
  · rfl
  · dsimp only
    rcases hc : lookupStr redirect.attrs "content" with _ | c
    · rfl
    · dsimp only
      rcases hm : matchRefreshReg c with _ | t
      · rfl
      · dsimp only
        rcases hcall : findEl (net (n + 1) ⟨"GET", t, [], []⟩).body "input" [("type", "hidden"), ("name", "call")] with _ | ci
        · rfl
        · dsimp only
          have hv := h t ci (by simp [wrRedirectTarget, hf, hc, hm]) hcall
          rcases hval : lookupStr ci.attrs "value" with _ | v
          · rw [hval] at hv
            simp at hv
          · dsimp only
            simp [wrOutcome]

/-- Entry page of the C7 witness run. -/
def c7r1 : Resp := ⟨WEBREG_REDIRECT, [],
  [⟨"meta", [("http-equiv", "refresh"), ("content", "0; url=https://wr.example/login")]⟩], true⟩

/-- Landing page of the C7 witness run. -/
def c7r2 : Resp := ⟨"https://wr.example/home", [],
  [⟨"input", [("type", "hidden"), ("name", "call"), ("value", "54321")]⟩], true⟩

/-- Transport oracle of the C7 witness run. -/
def c7net2 : Net := fun n _ => if n = 0 then c7r1 else c7r2

/-- Witness for the amended C7 at a concrete successful bootstrap. -/
theorem claim7_amended_outcome_witness :
    wrOutcome (wrAuthenticate c7net2 0 ⟨"x", "enrollQtrMenu", "0000"⟩) = wrAuthSpecAmended c7net2 0 :=
  claim7_amended_outcome _ _ _ (by
    intro t ci h1 h2
    rw [show wrRedirectTarget c7net2 0 = some "https://wr.example/login" from rfl] at h1
    injection h1 with h1
    subst h1
    rw [show findEl (c7net2 1 ⟨"GET", "https://wr.example/login", [], []⟩).body "input"
          [("type", "hidden"), ("name", "call")]
        = some ⟨"input", [("type", "hidden"), ("name", "call"), ("value", "54321")]⟩ from rfl] at h2
    injection h2 with h2
    subst h2
    rfl)
